import Mathlib

/-! Verification of the core algorithms of the ABTestSimu repository
(`src/ab_sim.py` and `src/bayesian.py`): the MD5-based hash bucketing
function `get_group`, the planning block around `p2_mde` / `req_n` /
`est_days`, the observed-lift and power computations, the Bayesian
posterior comparison `run_bayesian_analysis`, and the trust-audit
scoring logic.

Modelling conventions: Python integers are `Nat`/`Int` (they are
arbitrary precision); conversion rates, probabilities, powers and
p-values are `ℚ` with the float literals `0.8` and `0.05` read as the
exact rationals they denote; a `try`/`except` around an external
library call is modelled by passing the external call's outcome as an
explicit `Option`-valued parameter (`none` = the call raised). The
external statsmodels / numpy numeric routines (`proportions_ztest`,
`proportion_effectsize`, `NormalIndPower.solve_power`,
`NormalIndPower.power`, `np.random.beta`) are not repository code and
are left as explicit function parameters; everything written in the
two Python files themselves is embedded directly. -/

/-- UTF-8 encoding of a Unicode code point, as performed by Python
`str.encode()` inside `get_group`. -/
def utf8Bytes (c : Nat) : List Nat :=
  if c < 128 then [c]
  else if c < 2048 then [192 + c / 64, 128 + c % 64]
  else if c < 65536 then [224 + c / 4096, 128 + c / 64 % 64, 128 + c % 64]
  else [240 + c / 262144, 128 + c / 4096 % 64, 128 + c / 64 % 64, 128 + c % 64]

/-- UTF-8 byte sequence of a string (`input_str.encode()` in the source). -/
def strBytes (s : String) : List Nat :=
  (s.data.map (fun c => utf8Bytes c.toNat)).flatten

/-- Left rotation of a 32-bit word by `s` places. -/
def rotl32 (x s : Nat) : Nat :=
  (x * 2 ^ s + x / 2 ^ (32 - s)) % 2 ^ 32

/-- The 64 sine-derived round constants of MD5 (RFC 1321). -/
def md5K : List Nat :=
  [0xd76aa478, 0xe8c7b756, 0x242070db, 0xc1bdceee,
   0xf57c0faf, 0x4787c62a, 0xa8304613, 0xfd469501,
   0x698098d8, 0x8b44f7af, 0xffff5bb1, 0x895cd7be,
   0x6b901122, 0xfd987193, 0xa679438e, 0x49b40821,
   0xf61e2562, 0xc040b340, 0x265e5a51, 0xe9b6c7aa,
   0xd62f105d, 0x02441453, 0xd8a1e681, 0xe7d3fbc8,
   0x21e1cde6, 0xc33707d6, 0xf4d50d87, 0x455a14ed,
   0xa9e3e905, 0xfcefa3f8, 0x676f02d9, 0x8d2a4c8a,
   0xfffa3942, 0x8771f681, 0x6d9d6122, 0xfde5380c,
   0xa4beea44, 0x4bdecfa9, 0xf6bb4b60, 0xbebfbc70,
   0x289b7ec6, 0xeaa127fa, 0xd4ef3085, 0x04881d05,
   0xd9d4d039, 0xe6db99e5, 0x1fa27cf8, 0xc4ac5665,
   0xf4292244, 0x432aff97, 0xab9423a7, 0xfc93a039,
   0x655b59c3, 0x8f0ccc92, 0xffeff47d, 0x85845dd1,
   0x6fa87e4f, 0xfe2ce6e0, 0xa3014314, 0x4e0811a1,
   0xf7537e82, 0xbd3af235, 0x2ad7d2bb, 0xeb86d391]

/-- The per-round left-rotation amounts of MD5 (RFC 1321). -/
def md5S : List Nat :=
  [7, 12, 17, 22, 7, 12, 17, 22, 7, 12, 17, 22, 7, 12, 17, 22,
   5, 9, 14, 20, 5, 9, 14, 20, 5, 9, 14, 20, 5, 9, 14, 20,
   4, 11, 16, 23, 4, 11, 16, 23, 4, 11, 16, 23, 4, 11, 16, 23,
   6, 10, 15, 21, 6, 10, 15, 21, 6, 10, 15, 21, 6, 10, 15, 21]

/-- The MD5 nonlinear mixing function for round index `i` applied to the
words `b`, `c`, `d` (bitwise NOT on 32 bits is XOR with `2 ^ 32 - 1`). -/
def md5F (i b c d : Nat) : Nat :=
  if i < 16 then (b.land c).lor ((b.xor 4294967295).land d)
  else if i < 32 then (d.land b).lor ((d.xor 4294967295).land c)
  else if i < 48 then (b.xor c).xor d
  else c.xor (b.lor (d.xor 4294967295))

/-- The MD5 message-word schedule: which of the 16 chunk words round `i` uses. -/
def md5G (i : Nat) : Nat :=
  if i < 16 then i
  else if i < 32 then (5 * i + 1) % 16
  else if i < 48 then (3 * i + 5) % 16
  else 7 * i % 16

/-- The 16 little-endian 32-bit words of a 64-byte chunk. -/
def md5Words (chunk : List Nat) : List Nat :=
  (List.range 16).map (fun j =>
    chunk.getD (4 * j) 0 + 256 * chunk.getD (4 * j + 1) 0 +
      65536 * chunk.getD (4 * j + 2) 0 + 16777216 * chunk.getD (4 * j + 3) 0)

/-- `n` consecutive MD5 rounds starting at round index `i` on state
`(a, b, c, d)`, using the schedule `m` of the current chunk. -/
def md5Rounds (m : List Nat) : Nat → Nat → Nat × Nat × Nat × Nat → Nat × Nat × Nat × Nat
  | _, 0, st => st
  | i, n + 1, (a, b, c, d) =>
    md5Rounds m (i + 1) n
      (d,
       (b + rotl32 ((md5F i b c d + a + md5K.getD i 0 + m.getD (md5G i) 0) % 2 ^ 32)
          (md5S.getD i 0)) % 2 ^ 32,
       b, c)

/-- One MD5 compression step: 64 rounds on a 64-byte chunk, added back
into the incoming state modulo `2 ^ 32`. -/
def md5Chunk (st : Nat × Nat × Nat × Nat) (chunk : List Nat) : Nat × Nat × Nat × Nat :=
  let r := md5Rounds (md5Words chunk) 0 64 st
  ((st.1 + r.1) % 2 ^ 32, (st.2.1 + r.2.1) % 2 ^ 32,
   (st.2.2.1 + r.2.2.1) % 2 ^ 32, (st.2.2.2 + r.2.2.2) % 2 ^ 32)

/-- Folds the MD5 compression over `n` successive 64-byte chunks of `msg`. -/
def md5Loop : Nat → Nat × Nat × Nat × Nat → List Nat → Nat × Nat × Nat × Nat
  | 0, st, _ => st
  | n + 1, st, msg => md5Loop n (md5Chunk st (msg.take 64)) (msg.drop 64)

/-- MD5 padding: append `0x80`, zero-fill to 56 mod 64 bytes, then the
original bit length as a 64-bit little-endian quantity. -/
def md5Pad (msg : List Nat) : List Nat :=
  msg ++ [128] ++ List.replicate ((120 - (msg.length + 1) % 64) % 64) 0 ++
    (List.range 8).map (fun i => 8 * msg.length / 2 ^ (8 * i) % 256)

/-- The four little-endian bytes of a 32-bit word. -/
def le4 (x : Nat) : List Nat :=
  [x % 256, x / 256 % 256, x / 65536 % 256, x / 16777216 % 256]

/-- A byte list read as a base-256 big-endian natural number; this is what
Python's `int(hexdigest, 16)` computes from the digest bytes. -/
def beInt (l : List Nat) : Nat :=
  l.foldl (fun acc b => 256 * acc + b) 0

/-- The four MD5 state words after padding `msg` and compressing all of
its 64-byte chunks, starting from the standard initialization vector. -/
def md5Digest (msg : List Nat) : Nat × Nat × Nat × Nat :=
  md5Loop ((md5Pad msg).length / 64) (0x67452301, 0xefcdab89, 0x98badcfe, 0x10325476)
    (md5Pad msg)

/-- The MD5 digest of a byte list, interpreted exactly as the source's
`int(hashlib.md5(input_str.encode()).hexdigest(), 16)`: the 16 digest
bytes (the four state words serialized little-endian) read big-endian. -/
def md5Int (msg : List Nat) : Nat :=
  beInt (le4 (md5Digest msg).1 ++ le4 (md5Digest msg).2.1 ++
    le4 (md5Digest msg).2.2.1 ++ le4 (md5Digest msg).2.2.2)

/-- The two experiment variants `'A'` and `'B'` returned by `get_group`. -/
inductive Variant
  | A
  | B
deriving DecidableEq

/-- Verdict tier shown by the audit panel: `st.success` (high
confidence), `st.warning` (medium), `st.error` (low). -/
inductive Verdict
  | high
  | medium
  | low
deriving DecidableEq

/-- One entry of `audit_log`. Each constructor stands for the
corresponding message string appended by the source, with the values
interpolated into the f-string carried as arguments: `sampleLow`
carries `current_n / req_n`, `powerLow` carries `curr_power`. -/
inductive AuditEntry
  | sampleOk
  | sampleLow (done : ℚ)
  | powerOk
  | powerLow (pw : ℚ)
  | sigOk
  | sigNot
deriving DecidableEq

/-- Which of the three audit checks an entry belongs to:
0 = sample sufficiency, 1 = power, 2 = significance. -/
def checkOf : AuditEntry → Nat
  | .sampleOk => 0
  | .sampleLow _ => 0
  | .powerOk => 1
  | .powerLow _ => 1
  | .sigOk => 2
  | .sigNot => 2

/-- Outcome of the planning `try` block: either the two displayed
metrics (`req_n`, `est_days`), or the single untyped
`st.error("...")` branch of the bare `except`. -/
inductive PlanOutcome
  | ok (req_n est_days : ℤ)
  | genericError
deriving DecidableEq

namespace AbSim

/-- `get_group` of `src/ab_sim.py` (lines 15-18): md5 of
`f"{user_id}_{layer_name}_{salt}"`, reduced modulo 100 and compared
with the threshold 50. -/
def get_group (user_id layer_name salt : String) : Variant :=
  let input_str := user_id ++ "_" ++ layer_name ++ "_" ++ salt
  let hash_val := md5Int (strBytes input_str)
  if hash_val % 100 < 50 then Variant.A else Variant.B

/-- `p2_mde = base_p * (1 + mde_target)` (`src/ab_sim.py` line 48). -/
def p2_mde (base_p mde_target : ℚ) : ℚ := base_p * (1 + mde_target)

/-- `req_n = math.ceil(req_n_per_group * 2)` (`src/ab_sim.py` line 51). -/
def req_n (req_n_per_group : ℚ) : ℤ := ⌈req_n_per_group * 2⌉

/-- `est_days = math.ceil(req_n / dau)` (`src/ab_sim.py` line 52). -/
def est_days (rn : ℤ) (dau : ℕ) : ℤ := ⌈(rn : ℚ) / (dau : ℚ)⌉

/-- The planning `try` block (`src/ab_sim.py` lines 47-62). The external
statsmodels pipeline `proportion_effectsize` + `solve_power` is the
parameter `sol`, applied to `(p2_mde, base_p)`; `none` models the
library call raising, which the bare `except` turns into the one
generic error message. The block itself performs no check on `p2_mde`. -/
def planning (sol : ℚ → ℚ → Option ℚ) (base_p mde_target : ℚ) (dau : ℕ) : PlanOutcome :=
  match sol (p2_mde base_p mde_target) base_p with
  | some npg => PlanOutcome.ok (req_n npg) (est_days (req_n npg) dau)
  | none => PlanOutcome.genericError

/-- The power `try`/`except` (`src/ab_sim.py` lines 105-109): `raw` is
the outcome of the external `obj.power(...)` call (`none` = it raised);
the `except` branch sets `curr_power = 0.0`. -/
def curr_power (raw : Option ℚ) : ℚ :=
  match raw with
  | some p => p
  | none => 0

/-- `obs_lift = (cb / ca - 1) if ca > 0 else 0` with `ca`, `cb` the
per-group success rates (`src/ab_sim.py` lines 99-101), taken here from
the four aggregate counts. -/
def obs_lift (a_n a_s b_n b_s : ℕ) : ℚ :=
  let ca : ℚ := (a_s : ℚ) / (a_n : ℚ)
  let cb : ℚ := (b_s : ℚ) / (b_n : ℚ)
  if ca > 0 then cb / ca - 1 else 0

/-- The audit score (`src/ab_sim.py` lines 112-131): starts at 0, adds
40 for sample sufficiency, 30 for power at least `0.8`, 30 for
`p_val < 0.05`. -/
def score (current_n rq_n : ℕ) (power p_val : ℚ) : ℕ :=
  (if current_n ≥ rq_n then 40 else 0) +
  (if power ≥ 4 / 5 then 30 else 0) +
  (if p_val < 1 / 20 then 30 else 0)

/-- The verdict display chain (`src/ab_sim.py` lines 141-146):
`score == 100` → success, `elif score >= 70` → warning, else error. -/
def verdict (sc : ℕ) : Verdict :=
  if sc = 100 then Verdict.high else if sc ≥ 70 then Verdict.medium else Verdict.low

/-- The `audit_log` list (`src/ab_sim.py` lines 113-134): each of the
three checks appends exactly one message, in both its branches. -/
def audit_log (current_n rq_n : ℕ) (power p_val : ℚ) : List AuditEntry :=
  (if current_n ≥ rq_n then [AuditEntry.sampleOk]
   else [AuditEntry.sampleLow ((current_n : ℚ) / (rq_n : ℚ))]) ++
  (if power ≥ 4 / 5 then [AuditEntry.powerOk] else [AuditEntry.powerLow power]) ++
  (if p_val < 1 / 20 then [AuditEntry.sigOk] else [AuditEntry.sigNot])

end AbSim

namespace Bayesian

/-- `p2_mde = base_p * (1 + mde_target)` (`src/bayesian.py` line 71). -/
def p2_mde (base_p mde_target : ℚ) : ℚ := base_p * (1 + mde_target)

/-- `req_n = math.ceil(req_n_per_group * 2)` (`src/bayesian.py` line 74). -/
def req_n (req_n_per_group : ℚ) : ℤ := ⌈req_n_per_group * 2⌉

/-- `est_days = math.ceil(req_n / dau)` (`src/bayesian.py` line 75). -/
def est_days (rn : ℤ) (dau : ℕ) : ℤ := ⌈(rn : ℚ) / (dau : ℚ)⌉

/-- The planning `try` block (`src/bayesian.py` lines 70-85), textually
identical to the one in `src/ab_sim.py`. -/
def planning (sol : ℚ → ℚ → Option ℚ) (base_p mde_target : ℚ) (dau : ℕ) : PlanOutcome :=
  match sol (p2_mde base_p mde_target) base_p with
  | some npg => PlanOutcome.ok (req_n npg) (est_days (req_n npg) dau)
  | none => PlanOutcome.genericError

/-- The power `try`/`except` (`src/bayesian.py` lines 152-156),
identical to the one in `src/ab_sim.py`. -/
def curr_power (raw : Option ℚ) : ℚ :=
  match raw with
  | some p => p
  | none => 0

/-- `obs_lift = (cb_s / cb_n) / (ca_s / ca_n) - 1`
(`src/bayesian.py` line 192): the unguarded rate-ratio expression. -/
def obs_lift (ca_n ca_s cb_n cb_s : ℕ) : ℚ :=
  ((cb_s : ℚ) / (cb_n : ℚ)) / ((ca_s : ℚ) / (ca_n : ℚ)) - 1

/-- `run_bayesian_analysis` (`src/bayesian.py` lines 21-40). The
external `np.random.beta(alpha, beta, samples)` draw is the parameter
`sampler`; the function forms the posterior parameters
`1 + clicks`, `1 + n - clicks` for each group, draws 20000 samples per
group, and returns the fraction of paired draws with B above A together
with the mean of `max(a - b, 0)`. -/
def run_bayesian_analysis (sampler : ℤ → ℤ → ℕ → List ℚ)
    (c_clicks c_n t_clicks t_n : ℤ) : ℚ × ℚ :=
  let alpha_a : ℤ := 1 + c_clicks
  let beta_a : ℤ := 1 + c_n - c_clicks
  let alpha_b : ℤ := 1 + t_clicks
  let beta_b : ℤ := 1 + t_n - t_clicks
  let samples : ℕ := 20000
  let a_samples := sampler alpha_a beta_a samples
  let b_samples := sampler alpha_b beta_b samples
  let prob_b_better : ℚ :=
    (((a_samples.zip b_samples).countP (fun ab => ab.1 < ab.2) : ℕ) : ℚ) / (samples : ℚ)
  let expected_loss : ℚ :=
    ((a_samples.zip b_samples).map (fun ab => max (ab.1 - ab.2) 0)).sum / (samples : ℚ)
  (prob_b_better, expected_loss)

/-- The audit score (`src/bayesian.py` lines 158-174): same three
weighted checks as `src/ab_sim.py`. -/
def score (current_n rq_n : ℕ) (power p_val : ℚ) : ℕ :=
  (if current_n ≥ rq_n then 40 else 0) +
  (if power ≥ 4 / 5 then 30 else 0) +
  (if p_val < 1 / 20 then 30 else 0)

/-- The verdict display chain (`src/bayesian.py` lines 179-184). -/
def verdict (sc : ℕ) : Verdict :=
  if sc = 100 then Verdict.high else if sc ≥ 70 then Verdict.medium else Verdict.low

/-- The `audit_log` list (`src/bayesian.py` lines 159-174): the first
two checks append a message in both branches, but the significance
check (lines 172-174) appends only when `p_val < 0.05` — its `if` has
no `else`. -/
def audit_log (current_n rq_n : ℕ) (power p_val : ℚ) : List AuditEntry :=
  (if current_n ≥ rq_n then [AuditEntry.sampleOk]
   else [AuditEntry.sampleLow ((current_n : ℚ) / (rq_n : ℚ))]) ++
  (if power ≥ 4 / 5 then [AuditEntry.powerOk] else [AuditEntry.powerLow power]) ++
  (if p_val < 1 / 20 then [AuditEntry.sigOk] else [])

end Bayesian

namespace Bayesian

/-- `get_group` of `src/bayesian.py` (lines 14-17), textually identical
to the one in `src/ab_sim.py`. -/
def get_group (user_id layer_name salt : String) : Variant :=
  let input_str := user_id ++ "_" ++ layer_name ++ "_" ++ salt
  let hash_val := md5Int (strBytes input_str)
  if hash_val % 100 < 50 then Variant.A else Variant.B

end Bayesian

/-! Sanity checks of the MD5 embedding against the reference digests
of RFC 1321 and against the digest of a concrete bucketing input. -/

set_option maxRecDepth 100000 in
theorem md5Int_empty : md5Int (strBytes "") = 0xd41d8cd98f00b204e9800998ecf8427e := by
  decide

set_option maxRecDepth 100000 in
theorem md5Int_abc : md5Int (strBytes "abc") = 0x900150983cd24fb0d6963f7d28e17f72 := by
  decide

set_option maxRecDepth 100000 in
theorem get_group_user0 : AbSim.get_group "user_0" "L1" "UI_EXP" = Variant.B := by
  decide

/-! Bounds on the digest integer. -/

/-- Folding bytes big-endian from accumulator `acc` stays below
`(acc + 1) * 256 ^ length`. -/
theorem beInt_foldl_lt : ∀ (l : List Nat) (acc : Nat), (∀ x ∈ l, x < 256) →
    l.foldl (fun a b => 256 * a + b) acc < (acc + 1) * 256 ^ l.length
  | [], acc, _ => by simp
  | x :: t, acc, h => by
    have hx : x < 256 := h x (List.mem_cons_self x t)
    have ht : ∀ y ∈ t, y < 256 := fun y hy => h y (List.mem_cons_of_mem x hy)
    have ih := beInt_foldl_lt t (256 * acc + x) ht
    calc (x :: t).foldl (fun a b => 256 * a + b) acc
        = t.foldl (fun a b => 256 * a + b) (256 * acc + x) := rfl
      _ < (256 * acc + x + 1) * 256 ^ t.length := ih
      _ ≤ ((acc + 1) * 256) * 256 ^ t.length := Nat.mul_le_mul_right _ (by omega)
      _ = (acc + 1) * 256 ^ (x :: t).length := by
          rw [List.length_cons]; ring

/-- Every entry of `le4 x` is a byte. -/
theorem le4_lt (x : Nat) : ∀ y ∈ le4 x, y < 256 := by
  intro y hy
  simp only [le4, List.mem_cons, List.not_mem_nil, or_false] at hy
  rcases hy with h | h | h | h <;> subst h <;> exact Nat.mod_lt _ (by norm_num)

/-- The integer the source builds from the hex digest is always below
`2 ^ 128`: MD5 is a 128-bit digest. -/
theorem md5Int_lt (msg : List Nat) : md5Int msg < 2 ^ 128 := by
  have hmem : ∀ y ∈ (le4 (md5Digest msg).1 ++ le4 (md5Digest msg).2.1 ++
      le4 (md5Digest msg).2.2.1 ++ le4 (md5Digest msg).2.2.2), y < 256 := by
    intro y hy
    simp only [List.mem_append, or_assoc] at hy
    rcases hy with h | h | h | h <;> exact le4_lt _ _ h
  have hlen : (le4 (md5Digest msg).1 ++ le4 (md5Digest msg).2.1 ++
      le4 (md5Digest msg).2.2.1 ++ le4 (md5Digest msg).2.2.2).length = 16 := by
    simp [le4]
  have h := beInt_foldl_lt _ 0 hmem
  rw [hlen] at h
  have hint : md5Int msg = beInt (le4 (md5Digest msg).1 ++ le4 (md5Digest msg).2.1 ++
      le4 (md5Digest msg).2.2.1 ++ le4 (md5Digest msg).2.2.2) := rfl
  rw [hint]
  calc beInt (le4 (md5Digest msg).1 ++ le4 (md5Digest msg).2.1 ++
      le4 (md5Digest msg).2.2.1 ++ le4 (md5Digest msg).2.2.2)
      < (0 + 1) * 256 ^ 16 := h
    _ = 2 ^ 128 := by norm_num

/-! The claims about the program. -/

/-- Claim C1: for every triple of strings, two invocations of
`get_group` on the same triple return the same variant — in this
embedding `get_group` is a pure function of exactly the three inputs,
in both source files, so equal triples give equal variants. -/
theorem get_group_deterministic (u₁ l₁ s₁ u₂ l₂ s₂ : String)
    (hu : u₁ = u₂) (hl : l₁ = l₂) (hs : s₁ = s₂) :
    AbSim.get_group u₁ l₁ s₁ = AbSim.get_group u₂ l₂ s₂ ∧
    Bayesian.get_group u₁ l₁ s₁ = Bayesian.get_group u₂ l₂ s₂ := by
  subst hu hl hs
  exact ⟨rfl, rfl⟩

/-- Witness for C1 at a concrete triple. -/
theorem get_group_deterministic_wit :
    AbSim.get_group "user_0" "L1" "UI_EXP" = AbSim.get_group "user_0" "L1" "UI_EXP" ∧
    Bayesian.get_group "user_0" "L1" "UI_EXP" = Bayesian.get_group "user_0" "L1" "UI_EXP" :=
  get_group_deterministic "user_0" "L1" "UI_EXP" "user_0" "L1" "UI_EXP" rfl rfl rfl

/-- Claim C2: `get_group` joins the three inputs into the single string
`user_id ++ "_" ++ layer_name ++ "_" ++ salt`, takes its MD5 digest as
an unsigned integer (below `2 ^ 128`, i.e. a 128-bit digest), reduces
it modulo 100, and returns `A` exactly when the reduced value is below
the threshold 50 and `B` otherwise. -/
theorem get_group_hash_structure (u l s : String) :
    md5Int (strBytes (u ++ "_" ++ l ++ "_" ++ s)) < 2 ^ 128 ∧
    (AbSim.get_group u l s = Variant.A ↔
      md5Int (strBytes (u ++ "_" ++ l ++ "_" ++ s)) % 100 < 50) ∧
    (Bayesian.get_group u l s = Variant.B ↔
      ¬ md5Int (strBytes (u ++ "_" ++ l ++ "_" ++ s)) % 100 < 50) := by
  refine ⟨md5Int_lt _, ?_, ?_⟩
  · unfold AbSim.get_group
    by_cases h : md5Int (strBytes (u ++ "_" ++ l ++ "_" ++ s)) % 100 < 50 <;> simp [h]
  · unfold Bayesian.get_group
    by_cases h : md5Int (strBytes (u ++ "_" ++ l ++ "_" ++ s)) % 100 < 50 <;> simp [h]

/-- Claim C10: the bucketing functions of the two source files are
extensionally equal. -/
theorem get_group_files_agree (u l s : String) :
    AbSim.get_group u l s = Bayesian.get_group u l s := rfl

/-- Claim C3: in both files the audit score is the sum of the weights of
the passed checks (40 for `live_n ≥ required_n`, 30 for power at least
`0.8`, 30 for `p < 0.05`), hence lies in `[0, 100]`, and the verdict is
high exactly at score 100, medium exactly on `[70, 100)`, low exactly
below 70. -/
theorem audit_score_verdict (n rn : ℕ) (pw pv : ℚ) :
    AbSim.score n rn pw pv =
      (if rn ≤ n then 40 else 0) + (if 4 / 5 ≤ pw then 30 else 0) +
        (if pv < 1 / 20 then 30 else 0) ∧
    Bayesian.score n rn pw pv = AbSim.score n rn pw pv ∧
    Bayesian.verdict (Bayesian.score n rn pw pv) = AbSim.verdict (AbSim.score n rn pw pv) ∧
    AbSim.score n rn pw pv ≤ 100 ∧
    (AbSim.verdict (AbSim.score n rn pw pv) = Verdict.high ↔
      AbSim.score n rn pw pv = 100) ∧
    (AbSim.verdict (AbSim.score n rn pw pv) = Verdict.medium ↔
      70 ≤ AbSim.score n rn pw pv ∧ AbSim.score n rn pw pv < 100) ∧
    (AbSim.verdict (AbSim.score n rn pw pv) = Verdict.low ↔
      AbSim.score n rn pw pv < 70) := by
  have hs : AbSim.score n rn pw pv = 0 ∨ AbSim.score n rn pw pv = 30 ∨
      AbSim.score n rn pw pv = 40 ∨ AbSim.score n rn pw pv = 60 ∨
      AbSim.score n rn pw pv = 70 ∨ AbSim.score n rn pw pv = 100 := by
    unfold AbSim.score
    split_ifs <;> norm_num
  refine ⟨rfl, rfl, rfl, ?_, ?_, ?_, ?_⟩ <;>
    rcases hs with h | h | h | h | h | h <;> rw [h] <;> decide

/-- Claim C4 counterexample: when the external power call raises, the
code of both files returns the plain value `0.0` — the very input
`none` (computation failed) yields `0.0`, indistinguishable from the
genuinely computed power `some 0.0`, and no `PlanningError` is
signalled. -/
theorem curr_power_failure_sentinel_cex :
    AbSim.curr_power none = 0 ∧ Bayesian.curr_power none = 0 ∧
    AbSim.curr_power none = AbSim.curr_power (some 0) :=
  ⟨rfl, rfl, rfl⟩

/-- Claim C4 amended: the power `try`/`except` of both files catches any
failure of the external power computation and substitutes the sentinel
`0.0`, so a failed solve is reported exactly like a genuinely computed
power of `0.0`; no `PlanningError` exists in the program. -/
theorem curr_power_amended (raw : Option ℚ) :
    AbSim.curr_power raw = raw.getD 0 ∧
    Bayesian.curr_power raw = AbSim.curr_power raw := by
  cases raw <;> exact ⟨rfl, rfl⟩

/-- Claim C5 counterexample: with group A having zero observations (and
hence zero successes) the code raises no `InsufficientData` error — it
returns the sentinel `observed_lift = 0`. -/
theorem obs_lift_zero_count_cex : AbSim.obs_lift 0 0 10 5 = 0 := by
  norm_num [AbSim.obs_lift]

/-- Claim C5 amended: no `InsufficientData` failure exists. When group
A's count and successes are positive, `ab_sim.py` returns
`observed_lift = rate_b / rate_a - 1`, agreeing with the unguarded
rate-ratio expression of `bayesian.py`; when `rate_a` is zero
`ab_sim.py` silently returns the sentinel `0` instead. -/
theorem obs_lift_amended (a_n a_s b_n b_s : ℕ) (ha : 0 < a_n) (has : 0 < a_s) :
    AbSim.obs_lift a_n a_s b_n b_s =
      ((b_s : ℚ) / (b_n : ℚ)) / ((a_s : ℚ) / (a_n : ℚ)) - 1 ∧
    AbSim.obs_lift a_n a_s b_n b_s = Bayesian.obs_lift a_n a_s b_n b_s := by
  have hca : ((a_s : ℚ) / (a_n : ℚ)) > 0 :=
    div_pos (by exact_mod_cast has) (by exact_mod_cast ha)
  have h1 : AbSim.obs_lift a_n a_s b_n b_s =
      ((b_s : ℚ) / (b_n : ℚ)) / ((a_s : ℚ) / (a_n : ℚ)) - 1 := by
    unfold AbSim.obs_lift
    exact if_pos hca
  exact ⟨h1, h1⟩

/-- Witness for C5's amended theorem at concrete counts. -/
theorem obs_lift_amended_wit :
    AbSim.obs_lift 2 1 10 5 = Bayesian.obs_lift 2 1 10 5 :=
  (obs_lift_amended 2 1 10 5 (by norm_num) (by norm_num)).2

/-- Claim C6 counterexample: at `base_p = 0.9`, `mde = 0.5` the target
rate `p2 = 1.35 ≥ 1`, yet the planner performs no parameter check: when
the external solve returns a value it proceeds normally, and when the
solve raises, the bare `except` produces the single untyped generic
error — there is no `InvalidParameter` anywhere. -/
theorem planning_no_invalid_parameter_cex :
    AbSim.p2_mde (9 / 10) (1 / 2) ≥ 1 ∧
    AbSim.planning (fun _ _ => some 100) (9 / 10) (1 / 2) 1000 = PlanOutcome.ok 200 1 ∧
    AbSim.planning (fun _ _ => none) (9 / 10) (1 / 2) 1000 = PlanOutcome.genericError := by
  refine ⟨by norm_num [AbSim.p2_mde], ?_, rfl⟩
  show PlanOutcome.ok (AbSim.req_n 100) (AbSim.est_days (AbSim.req_n 100) 1000) =
    PlanOutcome.ok 200 1
  have h1 : AbSim.req_n 100 = 200 := by
    unfold AbSim.req_n
    norm_num
  have h2 : AbSim.est_days 200 1000 = 1 := by
    unfold AbSim.est_days
    rw [Int.ceil_eq_iff]
    norm_num
  rw [h1, h2]

/-- Claim C6 amended: the planner computes `p2 = p * (1 + r)` as
claimed, but validates nothing: its outcome depends only on whether the
external effect-size/solve call returns a value — `ok` on any returned
value regardless of `p2`'s range, and the one generic untyped error
(not an `InvalidParameter`) when the call raises. Both files behave
identically. -/
theorem planning_amended (sol : ℚ → ℚ → Option ℚ) (p r : ℚ) (dau : ℕ) :
    AbSim.p2_mde p r = p * (1 + r) ∧
    Bayesian.p2_mde p r = AbSim.p2_mde p r ∧
    (∀ npg, sol (AbSim.p2_mde p r) p = some npg →
      AbSim.planning sol p r dau =
        PlanOutcome.ok (AbSim.req_n npg) (AbSim.est_days (AbSim.req_n npg) dau)) ∧
    (sol (AbSim.p2_mde p r) p = none →
      AbSim.planning sol p r dau = PlanOutcome.genericError) ∧
    Bayesian.planning sol p r dau = AbSim.planning sol p r dau := by
  refine ⟨rfl, rfl, ?_, ?_, rfl⟩
  · intro npg h
    unfold AbSim.planning
    rw [h]
  · intro h
    unfold AbSim.planning
    rw [h]

/-- Witness for C6's amended theorem: both conditional branches applied
at concrete inputs. -/
theorem planning_amended_wit :
    AbSim.planning (fun _ _ => some 100) (9 / 10) (1 / 20) 1000 =
      PlanOutcome.ok (AbSim.req_n 100) (AbSim.est_days (AbSim.req_n 100) 1000) ∧
    AbSim.planning (fun _ _ => none) (9 / 10) (1 / 20) 1000 = PlanOutcome.genericError :=
  ⟨(planning_amended (fun _ _ => some 100) (9 / 10) (1 / 20) 1000).2.2.1 100 rfl,
   (planning_amended (fun _ _ => none) (9 / 10) (1 / 20) 1000).2.2.2.1 rfl⟩

/-- Claim C7: `run_bayesian_analysis` forms the posterior parameters
`Beta(1 + clicks, 1 + n - clicks)` for each group, draws 20000 samples
per group, returns the fraction of paired draws with B above A and the
mean of `max(a - b, 0)`; whenever the sampler returns the requested
number of draws, the probability lies in `[0, 1]` and the loss is
nonnegative. -/
theorem run_bayesian_spec (sampler : ℤ → ℤ → ℕ → List ℚ)
    (hlen : ∀ a b k, (sampler a b k).length = k)
    (c_clicks c_n t_clicks t_n : ℤ) :
    (Bayesian.run_bayesian_analysis sampler c_clicks c_n t_clicks t_n).1 =
      ((((sampler (1 + c_clicks) (1 + c_n - c_clicks) 20000).zip
          (sampler (1 + t_clicks) (1 + t_n - t_clicks) 20000)).countP
            (fun ab => ab.1 < ab.2) : ℕ) : ℚ) / 20000 ∧
    (Bayesian.run_bayesian_analysis sampler c_clicks c_n t_clicks t_n).2 =
      (((sampler (1 + c_clicks) (1 + c_n - c_clicks) 20000).zip
          (sampler (1 + t_clicks) (1 + t_n - t_clicks) 20000)).map
            (fun ab => max (ab.1 - ab.2) 0)).sum / 20000 ∧
    0 ≤ (Bayesian.run_bayesian_analysis sampler c_clicks c_n t_clicks t_n).1 ∧
    (Bayesian.run_bayesian_analysis sampler c_clicks c_n t_clicks t_n).1 ≤ 1 ∧
    0 ≤ (Bayesian.run_bayesian_analysis sampler c_clicks c_n t_clicks t_n).2 := by
  have h1 : (Bayesian.run_bayesian_analysis sampler c_clicks c_n t_clicks t_n).1 =
      ((((sampler (1 + c_clicks) (1 + c_n - c_clicks) 20000).zip
          (sampler (1 + t_clicks) (1 + t_n - t_clicks) 20000)).countP
            (fun ab => ab.1 < ab.2) : ℕ) : ℚ) / 20000 := by
    unfold Bayesian.run_bayesian_analysis
    norm_num
  have h2 : (Bayesian.run_bayesian_analysis sampler c_clicks c_n t_clicks t_n).2 =
      (((sampler (1 + c_clicks) (1 + c_n - c_clicks) 20000).zip
          (sampler (1 + t_clicks) (1 + t_n - t_clicks) 20000)).map
            (fun ab => max (ab.1 - ab.2) 0)).sum / 20000 := by
    unfold Bayesian.run_bayesian_analysis
    norm_num
  refine ⟨h1, h2, ?_, ?_, ?_⟩
  · rw [h1]
    exact div_nonneg (Nat.cast_nonneg _) (by norm_num)
  · rw [h1]
    rw [div_le_one (by norm_num)]
    have hc := List.countP_le_length (fun ab : ℚ × ℚ => ab.1 < ab.2)
      (l := (sampler (1 + c_clicks) (1 + c_n - c_clicks) 20000).zip
        (sampler (1 + t_clicks) (1 + t_n - t_clicks) 20000))
    have hz : ((sampler (1 + c_clicks) (1 + c_n - c_clicks) 20000).zip
        (sampler (1 + t_clicks) (1 + t_n - t_clicks) 20000)).length = 20000 := by
      rw [List.length_zip, hlen, hlen]
      norm_num
    rw [hz] at hc
    exact_mod_cast hc
  · rw [h2]
    refine div_nonneg ?_ (by norm_num)
    refine List.sum_nonneg ?_
    intro x hx
    rcases List.mem_map.mp hx with ⟨ab, _, hab⟩
    rw [← hab]
    exact le_max_right _ _

/-- Witness for C7 at a degenerate deterministic sampler. -/
theorem run_bayesian_spec_wit :
    0 ≤ (Bayesian.run_bayesian_analysis (fun _ _ k => List.replicate k 0) 10 100 20 100).1 ∧
    (Bayesian.run_bayesian_analysis (fun _ _ k => List.replicate k 0) 10 100 20 100).1 ≤ 1 ∧
    0 ≤ (Bayesian.run_bayesian_analysis (fun _ _ k => List.replicate k 0) 10 100 20 100).2 :=
  ⟨(run_bayesian_spec (fun _ _ k => List.replicate k 0)
      (fun _ _ k => List.length_replicate k 0) 10 100 20 100).2.2.1,
   (run_bayesian_spec (fun _ _ k => List.replicate k 0)
      (fun _ _ k => List.length_replicate k 0) 10 100 20 100).2.2.2.1,
   (run_bayesian_spec (fun _ _ k => List.replicate k 0)
      (fun _ _ k => List.length_replicate k 0) 10 100 20 100).2.2.2.2⟩

/-- Claim C8: the total required sample size is twice the per-group
solve result rounded up, and the estimated days value is the ceiling of
the total over the daily volume — characterized as the least integer
number of days whose traffic covers the total. Both files agree. -/
theorem plan_totals (npg : ℚ) (dau : ℕ) (hd : 0 < dau) :
    AbSim.req_n npg = ⌈2 * npg⌉ ∧
    Bayesian.req_n npg = AbSim.req_n npg ∧
    npg * 2 ≤ (AbSim.req_n npg : ℚ) ∧
    (AbSim.req_n npg : ℚ) ≤ (AbSim.est_days (AbSim.req_n npg) dau : ℚ) * (dau : ℚ) ∧
    (∀ k : ℤ, (AbSim.req_n npg : ℚ) ≤ (k : ℚ) * (dau : ℚ) →
      AbSim.est_days (AbSim.req_n npg) dau ≤ k) ∧
    Bayesian.est_days (AbSim.req_n npg) dau = AbSim.est_days (AbSim.req_n npg) dau := by
  have hdau : (0 : ℚ) < (dau : ℚ) := by exact_mod_cast hd
  refine ⟨by rw [AbSim.req_n, mul_comm], rfl, Int.le_ceil _, ?_, ?_, rfl⟩
  · have hle : ((AbSim.req_n npg : ℚ) / (dau : ℚ)) ≤
        (⌈(AbSim.req_n npg : ℚ) / (dau : ℚ)⌉ : ℚ) := Int.le_ceil _
    rw [div_le_iff₀ hdau] at hle
    exact hle
  · intro k hk
    rw [AbSim.est_days]
    exact Int.ceil_le.mpr ((div_le_iff₀ hdau).mpr hk)

/-- Witness for C8 at `n = 3.5` per group and a daily volume of 3. -/
theorem plan_totals_wit :
    AbSim.req_n (7 / 2) = ⌈2 * (7 / 2 : ℚ)⌉ ∧
    (AbSim.req_n (7 / 2) : ℚ) ≤ (AbSim.est_days (AbSim.req_n (7 / 2)) 3 : ℚ) * ((3 : ℕ) : ℚ) :=
  ⟨(plan_totals (7 / 2) 3 (by norm_num)).1,
   (plan_totals (7 / 2) 3 (by norm_num)).2.2.2.1⟩

/-- Claim C9 counterexample: in `bayesian.py` the significance check
appends its explanation only when it passes, so with a non-significant
p-value the audit list has two entries, not three. -/
theorem audit_log_missing_entry_cex :
    (Bayesian.audit_log 100 10 (9 / 10) (1 / 2)).length = 2 ∧
    ¬ (Bayesian.audit_log 100 10 (9 / 10) (1 / 2)).length = 3 := by
  have hn : (100 : ℕ) ≥ 10 := by norm_num
  have hpw : (9 : ℚ) / 10 ≥ 4 / 5 := by norm_num
  have hpv : ¬ ((1 : ℚ) / 2 < 1 / 20) := by norm_num
  unfold Bayesian.audit_log
  rw [if_pos hn, if_pos hpw, if_neg hpv]
  simp

/-- Claim C9 amended: `ab_sim.py`'s audit list always has exactly one
entry per check, in check order, hence exactly three entries;
`bayesian.py`'s list has the sample and power entries always but a
significance entry only when `p < 0.05`, so it has three entries when
significant and two otherwise. -/
theorem audit_log_amended (n rn : ℕ) (pw pv : ℚ) :
    (AbSim.audit_log n rn pw pv).map checkOf = [0, 1, 2] ∧
    (Bayesian.audit_log n rn pw pv).map checkOf =
      (if pv < 1 / 20 then [0, 1, 2] else [0, 1]) ∧
    (AbSim.audit_log n rn pw pv).length = 3 ∧
    (Bayesian.audit_log n rn pw pv).length = (if pv < 1 / 20 then 3 else 2) := by
  unfold AbSim.audit_log Bayesian.audit_log
  split_ifs <;> simp [checkOf]
